import Mathlib

set_option maxRecDepth 16384

/-!
Verification of the `self-plausible` repository: a CDK program (Go) that
declares a security group, an IAM role, an EC2 instance with a generated
boot script, and an elastic IP.  The definitions below are a shallow
embedding of `src/cdk/cdk.go`, `src/cdk/lib/stack.go` (the multipart
user-data variant) and `src/unnamed/part_000` (the flat user-data variant).
Descriptor construction is pure: each CDK constructor call becomes a record
value, each mutating call (`AddIngressRule`, `AddToPolicy`, `AddCommands`,
`AddPart`) becomes a function returning the updated record.
-/

/- ## Data model: networking descriptors -/

/-- `ec2.Peer_AnyIpv4()`: the unrestricted IPv4 source. -/
def Peer_AnyIpv4 : String := "0.0.0.0/0"

/-- A port selection as produced by `ec2.Port_Tcp`. -/
structure Port where
  protocol : String
  port : Nat
deriving DecidableEq, Repr

/-- `ec2.Port_Tcp(n)`. -/
def Port_Tcp (n : Nat) : Port := { protocol := "tcp", port := n }

/-- One ingress rule of a security group, as added by `sg.AddIngressRule`. -/
structure IngressRule where
  peer : String
  connection : Port
  description : String
deriving DecidableEq, Repr

/-- `ec2.SecurityGroupProps`. -/
structure SecurityGroupProps where
  allowAllOutbound : Bool
  securityGroupName : String
deriving DecidableEq, Repr

/-- A security-group descriptor: its props and the ingress rules added so far. -/
structure SecurityGroup where
  props : SecurityGroupProps
  ingressRules : List IngressRule
deriving DecidableEq, Repr

/-- `ec2.NewSecurityGroup`: no ingress rules yet. -/
def NewSecurityGroup (props : SecurityGroupProps) : SecurityGroup :=
  { props := props, ingressRules := [] }

/-- `sg.AddIngressRule(peer, connection, description, nil)`. -/
def AddIngressRule (sg : SecurityGroup) (peer : String) (connection : Port)
    (description : String) : SecurityGroup :=
  { sg with ingressRules :=
      sg.ingressRules ++ [{ peer := peer, connection := connection, description := description }] }

/- ## Data model: IAM descriptors -/

/-- `iam.Effect`. -/
inductive Effect where
  | ALLOW
  | DENY
deriving DecidableEq, Repr

/-- A principal, as produced by `iam.NewServicePrincipal`. -/
inductive IPrincipal where
  | servicePrincipal (service : String)
deriving DecidableEq, Repr

/-- `iam.NewServicePrincipal(service, nil)`. -/
def NewServicePrincipal (service : String) : IPrincipal :=
  IPrincipal.servicePrincipal service

/-- `iam.PolicyStatementProps` / the statement built by `iam.NewPolicyStatement`. -/
structure PolicyStatement where
  effect : Effect
  actions : List String
  resources : List String
deriving DecidableEq, Repr

/-- `iam.NewPolicyStatement`. -/
def NewPolicyStatement (effect : Effect) (actions resources : List String) : PolicyStatement :=
  { effect := effect, actions := actions, resources := resources }

/-- An IAM role descriptor: trust principal, attached managed policies, and
the inline statements added by `AddToPolicy`. -/
structure Role where
  assumedBy : IPrincipal
  managedPolicies : List String
  statements : List PolicyStatement
deriving DecidableEq, Repr

/-- `iam.NewRole` with `RoleProps\x7bAssumedBy, ManagedPolicies\x7d`: no inline statements yet. -/
def NewRole (assumedBy : IPrincipal) (managedPolicies : List String) : Role :=
  { assumedBy := assumedBy, managedPolicies := managedPolicies, statements := [] }

/-- `role.AddToPolicy(s)`. -/
def AddToPolicy (role : Role) (s : PolicyStatement) : Role :=
  { role with statements := role.statements ++ [s] }

/- ## Data model: user data (boot script) -/

/-- A Linux user-data script: shebang plus the ordered command list added by
`AddCommands`. -/
structure UserData where
  shebang : String
  commands : List String
deriving DecidableEq, Repr

/-- `ec2.UserData_ForLinux(&LinuxUserDataOptions\x7bShebang\x7d)`. -/
def UserData_ForLinux (shebang : String) : UserData :=
  { shebang := shebang, commands := [] }

/-- `userData.AddCommands(...)`: appends the given commands in order. -/
def AddCommands (u : UserData) (cmds : List String) : UserData :=
  { u with commands := u.commands ++ cmds }

/-- One part of a multipart user data, as produced by
`ec2.MultipartBody_FromUserData(body, contentType)`. -/
structure MultipartBody where
  contentType : String
  body : UserData
deriving DecidableEq, Repr

/-- `ec2.MultipartBody_FromUserData`. -/
def MultipartBody_FromUserData (body : UserData) (contentType : String) : MultipartBody :=
  { contentType := contentType, body := body }

/-- A multipart user data: the ordered list of parts added by `AddPart`. -/
structure MultipartUserData where
  parts : List MultipartBody
deriving DecidableEq, Repr

/-- `ec2.NewMultipartUserData(nil)`: no parts yet. -/
def NewMultipartUserData : MultipartUserData := { parts := [] }

/-- `userData.AddPart(p)`. -/
def AddPart (m : MultipartUserData) (p : MultipartBody) : MultipartUserData :=
  { m with parts := m.parts ++ [p] }

/- ## Data model: environment, props, image, instance -/

/-- `awscdk.Environment` with `Account` and `Region`. -/
structure Environment where
  Account : String
  Region : String
deriving DecidableEq, Repr

/-- `awscdk.StackProps` (only the `Env` field is used by this program). -/
structure StackProps where
  Env : Environment
deriving DecidableEq, Repr

/-- `lib.PlausibleStackProps` embeds `awscdk.StackProps`. -/
structure PlausibleStackProps where
  StackProps : StackProps
deriving DecidableEq, Repr

/-- `os.Getenv`: the empty string when the variable is absent from the
process environment (modelled as a partial map `String → Option String`). -/
def osGetenv (environ : String → Option String) (name : String) : String :=
  (environ name).getD ""

/-- `env()` from src/cdk/cdk.go: reads `CDK_DEFAULT_ACCOUNT` and
`CDK_DEFAULT_REGION` with no validation. -/
def env (environ : String → Option String) : Environment :=
  { Account := osGetenv environ "CDK_DEFAULT_ACCOUNT"
  , Region := osGetenv environ "CDK_DEFAULT_REGION" }

/-- `ec2.LookupMachineImageProps`. -/
structure LookupMachineImageProps where
  Name : String
  Owners : List String
deriving DecidableEq, Repr

/-- `ec2.InstanceProps`, polymorphic in the user-data representation
(multipart in stack.go, flat in part_000). -/
structure InstanceProps (U : Type) where
  instanceClass : String
  instanceSize : String
  machineImage : LookupMachineImageProps
  securityGroup : SecurityGroup
  keyPairName : String
  role : Role
  userData : U
deriving DecidableEq, Repr

/- ## The boot-script command strings (byte-faithful to the source) -/

/-- Command 0 of both variants. -/
def aptGetUpdateCmd : String :=
  "sudo apt-get update -y"

/-- Command 1 of both variants. -/
def installBaseCmd : String :=
  "sudo apt-get install -y docker.io docker-compose git awscli"

/-- Command 2 of both variants. -/
def enableDockerCmd : String :=
  "sudo systemctl enable docker"

/-- Command 3 of both variants. -/
def startDockerCmd : String :=
  "sudo systemctl start docker"

/-- Command 4: region self-discovery via the metadata endpoint. -/
def regionDiscoveryCmd : String :=
  "REGION=$(curl -s http://169.254.169.254/latest/meta-data/placement/region)"

/-- Command 5: export of the `secret_key_base` secret. -/
def exportSecretKeyBaseCmd : String :=
  "export SECRET_KEY_BASE=$(aws ssm get-parameter --name \x27/plausible/secret_key_base\x27 --with-decryption --query Parameter.Value --output text --region $REGION)"

/-- Command 6: export of the `postgres_password` secret. -/
def exportPostgresPasswordCmd : String :=
  "export POSTGRES_PASSWORD=$(aws ssm get-parameter --name \x27/plausible/postgres_password\x27 --with-decryption --query Parameter.Value --output text --region $REGION)"

/-- Command 7: the hardcoded base URL. -/
def exportBaseUrlCmd : String :=
  "export BASE_URL=\x27https://analytics.ilmarlopez.com\x27"

/-- Command 8. -/
def cdHomeCmd : String :=
  "cd /home/ubuntu"

/-- Command 9. -/
def gitCloneCmd : String :=
  "git clone https://github.com/IlmarLopez/plausible-hosting.git"

/-- Command 10. -/
def cdRepoCmd : String :=
  "cd plausible-hosting"

/-- Command 11: workload start. -/
def dockerComposeUpCmd : String :=
  "sudo docker-compose up -d"

/-- Command 12: reverse-proxy installation. -/
def installNginxCmd : String :=
  "sudo apt-get install -y nginx python3-certbot-nginx"

/-- Command 13. -/
def enableNginxCmd : String :=
  "sudo systemctl enable nginx"

/-- Command 14. -/
def startNginxCmd : String :=
  "sudo systemctl start nginx"

/-- Command 15 of the multipart variant (src/cdk/lib/stack.go): the site
config written via `sudo bash -c` with a `cat` heredoc (Go raw string,
leading newline and tab indentation included). -/
def nginxSiteConfigBashCmd : String :=
  "\n\t\t\tsudo bash -c \x27cat > /etc/nginx/sites-available/plausible <<\x27EOF\x27\n\t\t\tserver \x7b\n\t\t\t\t\tlisten 80;\n\t\t\t\t\tserver_name analytics.ilmarlopez.com;\n\n\t\t\t\t\tlocation / \x7b\n\t\t\t\t\t\t\tproxy_pass http://localhost:8000;\n\t\t\t\t\t\t\tproxy_set_header Host $host;\n\t\t\t\t\t\t\tproxy_set_header X-Real-IP $remote_addr;\n\t\t\t\t\t\t\tproxy_set_header X-Forwarded-For $proxy_add_x_forwarded_for;\n\t\t\t\t\t\t\tproxy_set_header X-Forwarded-Proto $scheme;\n\t\t\t\t\t\x7d\n\t\t\t\x7d\n\t\t\tEOF\x27"

/-- Command 15 of the flat variant (src/unnamed/part_000): the site config
written via `sudo tee` with a quoted heredoc (trailing newline included). -/
def nginxSiteConfigTeeCmd : String :=
  "sudo tee /etc/nginx/sites-available/plausible > /dev/null << \x27EOF\x27\nserver \x7b\n    listen 80;\n    server_name analytics.ilmarlopez.com;\n\n    location / \x7b\n        proxy_pass http://localhost:8000;\n        proxy_set_header Host $host;\n        proxy_set_header X-Real-IP $remote_addr;\n        proxy_set_header X-Forwarded-For $proxy_add_x_forwarded_for;\n        proxy_set_header X-Forwarded-Proto $scheme;\n    \x7d\n\x7d\nEOF\n"

/-- Command 16: symlink of the site config. -/
def lnSiteCmd : String :=
  "sudo ln -s /etc/nginx/sites-available/plausible /etc/nginx/sites-enabled/"

/-- Command 17. -/
def rmDefaultSiteCmd : String :=
  "sudo rm /etc/nginx/sites-enabled/default"

/-- Command 18: config test. -/
def nginxTestCmd : String :=
  "sudo nginx -t"

/-- Command 19: proxy restart. -/
def restartNginxCmd : String :=
  "sudo systemctl restart nginx"

/-- Command 20: certificate issuance. -/
def certbotCmd : String :=
  "sudo certbot --nginx -n --agree-tos --email me@ilmarlopez.com -d analytics.ilmarlopez.com --redirect"

/-- The cron line that command 21 pipes into `tee`. -/
def cronLine : String :=
  "0 0 * * * root /usr/bin/certbot renew --quiet"

/-- Command 21: scheduled certificate renewal written to /etc/cron.d/certbot-renew. -/
def cronRenewCmd : String :=
  "echo \x270 0 * * * root /usr/bin/certbot renew --quiet\x27 | sudo tee /etc/cron.d/certbot-renew"

/-- The command list passed to `linuxCommands.AddCommands` in
src/cdk/lib/stack.go (multipart variant). -/
def multipartBootCommands : List String :=
  [ aptGetUpdateCmd, installBaseCmd, enableDockerCmd, startDockerCmd,
    regionDiscoveryCmd, exportSecretKeyBaseCmd, exportPostgresPasswordCmd, exportBaseUrlCmd,
    cdHomeCmd, gitCloneCmd, cdRepoCmd, dockerComposeUpCmd,
    installNginxCmd, enableNginxCmd, startNginxCmd,
    nginxSiteConfigBashCmd,
    lnSiteCmd, rmDefaultSiteCmd, nginxTestCmd, restartNginxCmd,
    certbotCmd, cronRenewCmd ]

/-- The command list passed to `userData.AddCommands` in src/unnamed/part_000
(flat variant). -/
def flatBootCommands : List String :=
  [ aptGetUpdateCmd, installBaseCmd, enableDockerCmd, startDockerCmd,
    regionDiscoveryCmd, exportSecretKeyBaseCmd, exportPostgresPasswordCmd, exportBaseUrlCmd,
    cdHomeCmd, gitCloneCmd, cdRepoCmd, dockerComposeUpCmd,
    installNginxCmd, enableNginxCmd, startNginxCmd,
    nginxSiteConfigTeeCmd,
    lnSiteCmd, rmDefaultSiteCmd, nginxTestCmd, restartNginxCmd,
    certbotCmd, cronRenewCmd ]

/- ## The stack builders -/

/-- The descriptor graph built by `NewPlausibleStack` in src/cdk/lib/stack.go. -/
structure PlausibleStack where
  sg : SecurityGroup
  role : Role
  userData : MultipartUserData
  ami : LookupMachineImageProps
  inst : InstanceProps MultipartUserData
  eipDomain : String
  outputDescription : String
deriving DecidableEq, Repr

/-- Embeds `NewPlausibleStack` from src/cdk/lib/stack.go (the multipart
user-data variant), as a pure function of the stack id and props; the
account and region are `stack.Account()` / `stack.Region()`, resolved from
`props.StackProps.Env`. -/
def NewPlausibleStack (_id : String) (props : PlausibleStackProps) : PlausibleStack :=
  let accountId := props.StackProps.Env.Account
  let region := props.StackProps.Env.Region
  let sg := NewSecurityGroup { allowAllOutbound := true, securityGroupName := "PlausibleSG" }
  let sg := AddIngressRule sg Peer_AnyIpv4 (Port_Tcp 22) "Allow SSH"
  let sg := AddIngressRule sg Peer_AnyIpv4 (Port_Tcp 80) "Allow HTTP"
  let sg := AddIngressRule sg Peer_AnyIpv4 (Port_Tcp 443) "Allow HTTPS"
  let role := NewRole (NewServicePrincipal "ec2.amazonaws.com") ["AmazonSSMManagedInstanceCore"]
  let role := AddToPolicy role (NewPolicyStatement Effect.ALLOW
      ["ssm:GetParameter", "ssm:GetParameters"]
      ["arn:aws:ssm:" ++ region ++ ":" ++ accountId ++ ":parameter/plausible/*"])
  let userData := NewMultipartUserData
  let linuxCommands := UserData_ForLinux "#!/bin/bash"
  let linuxCommands := AddCommands linuxCommands multipartBootCommands
  let linuxUserDataPart :=
    MultipartBody_FromUserData linuxCommands "text/x-shellscript; charset=\"utf-8\""
  let userData := AddPart userData linuxUserDataPart
  let ami : LookupMachineImageProps :=
    { Name := "ubuntu/images/hvm-ssd/ubuntu-focal-20.04-amd64-server-*"
    , Owners := ["099720109477"] }
  { sg := sg, role := role, userData := userData, ami := ami
  , inst :=
      { instanceClass := "BURSTABLE3", instanceSize := "MICRO"
      , machineImage := ami, securityGroup := sg
      , keyPairName := "plausible-keypair", role := role, userData := userData }
  , eipDomain := "vpc"
  , outputDescription := "The public IP address of the EC2 instance" }

/-- All boot-script commands of a multipart stack, in order: the
concatenation of its parts' command lists. -/
def stackBootCommands (s : PlausibleStack) : List String :=
  (s.userData.parts.map fun p => p.body.commands).flatten

namespace FlatVariant

/-- The descriptor graph built by `NewPlausibleStack` in src/unnamed/part_000
(the flat user-data variant). -/
structure PlausibleStack where
  sg : SecurityGroup
  role : Role
  ami : LookupMachineImageProps
  userData : UserData
  inst : InstanceProps UserData
  eipDomain : String
  outputDescription : String
deriving DecidableEq, Repr

/-- Embeds `NewPlausibleStack` from src/unnamed/part_000 (flat user-data,
built after the AMI lookup, in source order). -/
def NewPlausibleStack (_id : String) (props : PlausibleStackProps) : PlausibleStack :=
  let accountId := props.StackProps.Env.Account
  let region := props.StackProps.Env.Region
  let sg := NewSecurityGroup { allowAllOutbound := true, securityGroupName := "PlausibleSG" }
  let sg := AddIngressRule sg Peer_AnyIpv4 (Port_Tcp 22) "Allow SSH"
  let sg := AddIngressRule sg Peer_AnyIpv4 (Port_Tcp 80) "Allow HTTP"
  let sg := AddIngressRule sg Peer_AnyIpv4 (Port_Tcp 443) "Allow HTTPS"
  let role := NewRole (NewServicePrincipal "ec2.amazonaws.com") ["AmazonSSMManagedInstanceCore"]
  let role := AddToPolicy role (NewPolicyStatement Effect.ALLOW
      ["ssm:GetParameter", "ssm:GetParameters"]
      ["arn:aws:ssm:" ++ region ++ ":" ++ accountId ++ ":parameter/plausible/*"])
  let ami : LookupMachineImageProps :=
    { Name := "ubuntu/images/hvm-ssd/ubuntu-focal-20.04-amd64-server-*"
    , Owners := ["099720109477"] }
  let userData := UserData_ForLinux "#!/bin/bash"
  let userData := AddCommands userData flatBootCommands
  { sg := sg, role := role, ami := ami, userData := userData
  , inst :=
      { instanceClass := "BURSTABLE3", instanceSize := "MICRO"
      , machineImage := ami, securityGroup := sg
      , keyPairName := "plausible-keypair", role := role, userData := userData }
  , eipDomain := "vpc"
  , outputDescription := "The public IP address of the EC2 instance" }

end FlatVariant

/- ## Model of the final cron command's effect on its target file -/

/-- Modelled from the spec: the effect on the target file of piping a line
into `sudo tee FILE` (no append flag), as the boot script's final command
does.  `tee` without `-a` truncates the file and writes its input, so the
resulting contents are exactly the one line, whatever was there before. -/
def teeWriteEffect (line : String) (_contents : List String) : List String :=
  [line]

/-- Modelled from the spec: the effect `tee -a FILE` (append flag) would
have — the line is appended to the existing contents.  The source does not
use this form; it is stated for comparison with the spec's description. -/
def teeAppendEffect (line : String) (contents : List String) : List String :=
  contents ++ [line]

/-- The effect of `cronRenewCmd` on the lines of /etc/cron.d/certbot-renew. -/
def cronRenewCmdEffect (contents : List String) : List String :=
  teeWriteEffect cronLine contents

/- ## Concrete inputs used by witnesses and counterexamples -/

/-- The deployment context of end-to-end scenario 1. -/
def props0 : PlausibleStackProps :=
  { StackProps := { Env := { Account := "111122223333", Region := "us-east-1" } } }

/-- A process environment where the account variable is set and the region
variable is absent. -/
def environ0 : String → Option String := fun name =>
  if name = "CDK_DEFAULT_ACCOUNT" then some "111122223333" else none

/- ## Shared helper lemmas -/

/-- The multipart stack's boot commands are the literal command list,
independent of id and props. -/
theorem stackBootCommands_eq (id : String) (props : PlausibleStackProps) :
    stackBootCommands (NewPlausibleStack id props) = multipartBootCommands := rfl

/-- The flat stack's boot commands are the literal command list,
independent of id and props. -/
theorem flatBootCommands_eq (id : String) (props : PlausibleStackProps) :
    (FlatVariant.NewPlausibleStack id props).userData.commands = flatBootCommands := rfl

/- ## Claims -/

/-- Claim C1: for every deployment context with non-empty account and
non-empty region, the IAM policy statement's resource pattern produced by
`NewPlausibleStack` is exactly `arn:aws:ssm:REGION:ACCOUNT:parameter/plausible/*`
with the region and account substituted in those positions. -/
theorem iam_resource_pattern_exact (id : String) (props : PlausibleStackProps)
    (_ha : props.StackProps.Env.Account ≠ "") (_hr : props.StackProps.Env.Region ≠ "") :
    (NewPlausibleStack id props).role.statements.map PolicyStatement.resources
      = [["arn:aws:ssm:" ++ props.StackProps.Env.Region ++ ":"
            ++ props.StackProps.Env.Account ++ ":parameter/plausible/*"]] := rfl

/-- Witness for C1: account `111122223333` and region `us-east-1` yield the
resource pattern `arn:aws:ssm:us-east-1:111122223333:parameter/plausible/*`. -/
theorem iam_resource_pattern_exact_witness :
    props0.StackProps.Env.Account ≠ "" ∧ props0.StackProps.Env.Region ≠ ""
    ∧ (NewPlausibleStack "plausible-stack" props0).role.statements.map PolicyStatement.resources
        = [["arn:aws:ssm:us-east-1:111122223333:parameter/plausible/*"]] :=
  ⟨by decide, by decide,
    (iam_resource_pattern_exact "plausible-stack" props0 (by decide) (by decide)).trans
      (by decide)⟩

/-- Claim C2: for every build (any id, any props), the security group's
ingress rule set of both variants is exactly the three entries
(22, tcp, 0.0.0.0/0), (80, tcp, 0.0.0.0/0), (443, tcp, 0.0.0.0/0). -/
theorem ingress_rules_fixed (id : String) (props : PlausibleStackProps) :
    (NewPlausibleStack id props).sg.ingressRules
      = [ { peer := "0.0.0.0/0", connection := { protocol := "tcp", port := 22 },
            description := "Allow SSH" }
        , { peer := "0.0.0.0/0", connection := { protocol := "tcp", port := 80 },
            description := "Allow HTTP" }
        , { peer := "0.0.0.0/0", connection := { protocol := "tcp", port := 443 },
            description := "Allow HTTPS" } ]
    ∧ (FlatVariant.NewPlausibleStack id props).sg.ingressRules
      = [ { peer := "0.0.0.0/0", connection := { protocol := "tcp", port := 22 },
            description := "Allow SSH" }
        , { peer := "0.0.0.0/0", connection := { protocol := "tcp", port := 80 },
            description := "Allow HTTP" }
        , { peer := "0.0.0.0/0", connection := { protocol := "tcp", port := 443 },
            description := "Allow HTTPS" } ] :=
  ⟨rfl, rfl⟩

/-- Claim C3: in every generated boot-script command sequence (either
variant), the two secret-export commands occur strictly after the
region-discovery command and strictly before the workload-start command. -/
theorem secret_exports_between_region_and_workload (id : String) (props : PlausibleStackProps) :
    ((stackBootCommands (NewPlausibleStack id props)).indexOf regionDiscoveryCmd
        < (stackBootCommands (NewPlausibleStack id props)).indexOf exportSecretKeyBaseCmd
      ∧ (stackBootCommands (NewPlausibleStack id props)).indexOf exportSecretKeyBaseCmd
        < (stackBootCommands (NewPlausibleStack id props)).indexOf dockerComposeUpCmd
      ∧ (stackBootCommands (NewPlausibleStack id props)).indexOf regionDiscoveryCmd
        < (stackBootCommands (NewPlausibleStack id props)).indexOf exportPostgresPasswordCmd
      ∧ (stackBootCommands (NewPlausibleStack id props)).indexOf exportPostgresPasswordCmd
        < (stackBootCommands (NewPlausibleStack id props)).indexOf dockerComposeUpCmd)
    ∧ (((FlatVariant.NewPlausibleStack id props).userData.commands).indexOf regionDiscoveryCmd
        < ((FlatVariant.NewPlausibleStack id props).userData.commands).indexOf exportSecretKeyBaseCmd
      ∧ ((FlatVariant.NewPlausibleStack id props).userData.commands).indexOf exportSecretKeyBaseCmd
        < ((FlatVariant.NewPlausibleStack id props).userData.commands).indexOf dockerComposeUpCmd
      ∧ ((FlatVariant.NewPlausibleStack id props).userData.commands).indexOf regionDiscoveryCmd
        < ((FlatVariant.NewPlausibleStack id props).userData.commands).indexOf exportPostgresPasswordCmd
      ∧ ((FlatVariant.NewPlausibleStack id props).userData.commands).indexOf exportPostgresPasswordCmd
        < ((FlatVariant.NewPlausibleStack id props).userData.commands).indexOf dockerComposeUpCmd) := by
  rw [stackBootCommands_eq, flatBootCommands_eq]
  decide

/-- Claim C4: in every generated boot-script command sequence (either
variant), the reverse-proxy configuration commands (nginx install,
site-config write, symlink, config test, restart) occur strictly after the
workload-start command and strictly before the certificate-issuance command. -/
theorem proxy_config_between_workload_and_certbot (id : String) (props : PlausibleStackProps) :
    ((stackBootCommands (NewPlausibleStack id props)).indexOf dockerComposeUpCmd
        < (stackBootCommands (NewPlausibleStack id props)).indexOf installNginxCmd
      ∧ (stackBootCommands (NewPlausibleStack id props)).indexOf installNginxCmd
        < (stackBootCommands (NewPlausibleStack id props)).indexOf certbotCmd
      ∧ (stackBootCommands (NewPlausibleStack id props)).indexOf dockerComposeUpCmd
        < (stackBootCommands (NewPlausibleStack id props)).indexOf nginxSiteConfigBashCmd
      ∧ (stackBootCommands (NewPlausibleStack id props)).indexOf nginxSiteConfigBashCmd
        < (stackBootCommands (NewPlausibleStack id props)).indexOf certbotCmd
      ∧ (stackBootCommands (NewPlausibleStack id props)).indexOf dockerComposeUpCmd
        < (stackBootCommands (NewPlausibleStack id props)).indexOf lnSiteCmd
      ∧ (stackBootCommands (NewPlausibleStack id props)).indexOf lnSiteCmd
        < (stackBootCommands (NewPlausibleStack id props)).indexOf certbotCmd
      ∧ (stackBootCommands (NewPlausibleStack id props)).indexOf dockerComposeUpCmd
        < (stackBootCommands (NewPlausibleStack id props)).indexOf nginxTestCmd
      ∧ (stackBootCommands (NewPlausibleStack id props)).indexOf nginxTestCmd
        < (stackBootCommands (NewPlausibleStack id props)).indexOf certbotCmd
      ∧ (stackBootCommands (NewPlausibleStack id props)).indexOf dockerComposeUpCmd
        < (stackBootCommands (NewPlausibleStack id props)).indexOf restartNginxCmd
      ∧ (stackBootCommands (NewPlausibleStack id props)).indexOf restartNginxCmd
        < (stackBootCommands (NewPlausibleStack id props)).indexOf certbotCmd)
    ∧ (((FlatVariant.NewPlausibleStack id props).userData.commands).indexOf dockerComposeUpCmd
        < ((FlatVariant.NewPlausibleStack id props).userData.commands).indexOf installNginxCmd
      ∧ ((FlatVariant.NewPlausibleStack id props).userData.commands).indexOf installNginxCmd
        < ((FlatVariant.NewPlausibleStack id props).userData.commands).indexOf certbotCmd
      ∧ ((FlatVariant.NewPlausibleStack id props).userData.commands).indexOf dockerComposeUpCmd
        < ((FlatVariant.NewPlausibleStack id props).userData.commands).indexOf nginxSiteConfigTeeCmd
      ∧ ((FlatVariant.NewPlausibleStack id props).userData.commands).indexOf nginxSiteConfigTeeCmd
        < ((FlatVariant.NewPlausibleStack id props).userData.commands).indexOf certbotCmd
      ∧ ((FlatVariant.NewPlausibleStack id props).userData.commands).indexOf dockerComposeUpCmd
        < ((FlatVariant.NewPlausibleStack id props).userData.commands).indexOf lnSiteCmd
      ∧ ((FlatVariant.NewPlausibleStack id props).userData.commands).indexOf lnSiteCmd
        < ((FlatVariant.NewPlausibleStack id props).userData.commands).indexOf certbotCmd
      ∧ ((FlatVariant.NewPlausibleStack id props).userData.commands).indexOf dockerComposeUpCmd
        < ((FlatVariant.NewPlausibleStack id props).userData.commands).indexOf nginxTestCmd
      ∧ ((FlatVariant.NewPlausibleStack id props).userData.commands).indexOf nginxTestCmd
        < ((FlatVariant.NewPlausibleStack id props).userData.commands).indexOf certbotCmd
      ∧ ((FlatVariant.NewPlausibleStack id props).userData.commands).indexOf dockerComposeUpCmd
        < ((FlatVariant.NewPlausibleStack id props).userData.commands).indexOf restartNginxCmd
      ∧ ((FlatVariant.NewPlausibleStack id props).userData.commands).indexOf restartNginxCmd
        < ((FlatVariant.NewPlausibleStack id props).userData.commands).indexOf certbotCmd) := by
  rw [stackBootCommands_eq, flatBootCommands_eq]
  decide

/-- Claim C5 counterexample: the flat variant's command list is not
element-wise equal to the multipart variant's single part — they differ at
position 15, the site-config write command. -/
theorem variant_command_lists_differ :
    stackBootCommands (NewPlausibleStack "plausible-stack" props0)
      ≠ (FlatVariant.NewPlausibleStack "plausible-stack" props0).userData.commands
    ∧ (stackBootCommands (NewPlausibleStack "plausible-stack" props0)).get? 15
      ≠ ((FlatVariant.NewPlausibleStack "plausible-stack" props0).userData.commands).get? 15 := by
  rw [stackBootCommands_eq, flatBootCommands_eq]
  exact ⟨by decide, by decide⟩

/-- Claim C5 (amended): both variants' command lists have length 22 and
agree at every position except 15, the site-config write command, where the
multipart variant uses a `sudo bash -c` heredoc and the flat variant a
`sudo tee` heredoc. -/
theorem variant_command_lists_agree_off_site_config
    (id : String) (props : PlausibleStackProps) :
    (stackBootCommands (NewPlausibleStack id props)).length = 22
    ∧ ((FlatVariant.NewPlausibleStack id props).userData.commands).length = 22
    ∧ ∀ i : Nat, i ≠ 15 →
        (stackBootCommands (NewPlausibleStack id props)).get? i
          = ((FlatVariant.NewPlausibleStack id props).userData.commands).get? i := by
  rw [stackBootCommands_eq, flatBootCommands_eq]
  refine ⟨rfl, rfl, ?_⟩
  intro i hi
  by_cases hlt : i < 22
  · interval_cases i <;> first | rfl | exact absurd rfl hi
  · rw [List.get?_eq_none.mpr, List.get?_eq_none.mpr] <;> simp [flatBootCommands,
      multipartBootCommands] <;> omega

/-- Witness for the amended C5: at position 0 (which is not 15) the two
variants agree. -/
theorem variant_command_lists_agree_off_site_config_witness :
    (stackBootCommands (NewPlausibleStack "plausible-stack" props0)).get? 0
      = ((FlatVariant.NewPlausibleStack "plausible-stack" props0).userData.commands).get? 0 :=
  (variant_command_lists_agree_off_site_config "plausible-stack" props0).2.2 0 (by decide)

/-- Claim C6 counterexample: the boot script's final command pipes the cron
line into `tee` without the append flag, which overwrites
/etc/cron.d/certbot-renew; rerunning it on the already-written file leaves
the contents unchanged, it does not duplicate the cron line. -/
theorem cron_rerun_counterexample :
    (stackBootCommands (NewPlausibleStack "plausible-stack" props0)).getLast? = some cronRenewCmd
    ∧ cronRenewCmd
        = "echo \x27" ++ cronLine ++ "\x27 | sudo tee /etc/cron.d/certbot-renew"
    ∧ cronRenewCmdEffect (cronRenewCmdEffect []) = cronRenewCmdEffect []
    ∧ cronRenewCmdEffect (cronRenewCmdEffect [])
        ≠ teeAppendEffect cronLine (cronRenewCmdEffect []) := by
  refine ⟨by decide, by decide, rfl, by decide⟩

/-- Claim C6 (amended): the final phase of the generated boot script (both
variants end with `cronRenewCmd`) writes the scheduled renewal job to
/etc/cron.d/certbot-renew via `tee` without the append flag, overwriting the
file: its effect on any prior contents is the single cron line, so rerunning
the script rewrites the same line and leaves the file's contents unchanged
rather than duplicating the cron line. -/
theorem cron_renew_final_overwrite (id : String) (props : PlausibleStackProps) :
    (stackBootCommands (NewPlausibleStack id props)).getLast? = some cronRenewCmd
    ∧ ((FlatVariant.NewPlausibleStack id props).userData.commands).getLast? = some cronRenewCmd
    ∧ (∀ contents : List String, cronRenewCmdEffect contents = [cronLine])
    ∧ cronRenewCmdEffect (cronRenewCmdEffect []) = cronRenewCmdEffect [] := by
  rw [stackBootCommands_eq, flatBootCommands_eq]
  exact ⟨by decide, by decide, fun _ => rfl, rfl⟩

/-- Claim C7: building the descriptor twice with identical inputs yields
byte-identical boot-script command sequences, for both variants — the
command list is a deterministic (pure) function of the id and props. -/
theorem boot_script_deterministic (id₁ id₂ : String) (props₁ props₂ : PlausibleStackProps)
    (hid : id₁ = id₂) (hp : props₁ = props₂) :
    stackBootCommands (NewPlausibleStack id₁ props₁)
      = stackBootCommands (NewPlausibleStack id₂ props₂)
    ∧ (FlatVariant.NewPlausibleStack id₁ props₁).userData.commands
      = (FlatVariant.NewPlausibleStack id₂ props₂).userData.commands := by
  subst hid; subst hp; exact ⟨rfl, rfl⟩

/-- Witness for C7: two builds at the concrete scenario inputs agree. -/
theorem boot_script_deterministic_witness :
    stackBootCommands (NewPlausibleStack "plausible-stack" props0)
      = stackBootCommands (NewPlausibleStack "plausible-stack" props0)
    ∧ (FlatVariant.NewPlausibleStack "plausible-stack" props0).userData.commands
      = (FlatVariant.NewPlausibleStack "plausible-stack" props0).userData.commands :=
  boot_script_deterministic "plausible-stack" "plausible-stack" props0 props0 rfl rfl

/-- Claim C8: when the region environment variable is absent, `env` yields
the empty-string region, construction still succeeds (it is a total
function), and the IAM resource pattern silently embeds an empty region
segment: `arn:aws:ssm::ACCOUNT:parameter/plausible/*`. -/
theorem missing_env_empty_segment (environ : String → Option String)
    (hr : environ "CDK_DEFAULT_REGION" = none) :
    (env environ).Region = ""
    ∧ (NewPlausibleStack "plausible-stack"
          { StackProps := { Env := env environ } }).role.statements.map PolicyStatement.resources
        = [["arn:aws:ssm::" ++ (env environ).Account ++ ":parameter/plausible/*"]] := by
  have h1 : (env environ).Region = "" := by
    unfold env osGetenv
    rw [hr]
    rfl
  refine ⟨h1, ?_⟩
  show [["arn:aws:ssm:" ++ (env environ).Region ++ ":"
          ++ (env environ).Account ++ ":parameter/plausible/*"]] = _
  rw [h1]
  have h2 : ("arn:aws:ssm:" ++ "" ++ ":") = "arn:aws:ssm::" := rfl
  rw [h2]

/-- Witness for C8: with `environ0` (account set, region absent) the
resource pattern is `arn:aws:ssm::111122223333:parameter/plausible/*`. -/
theorem missing_env_empty_segment_witness :
    environ0 "CDK_DEFAULT_REGION" = none
    ∧ (env environ0).Region = ""
    ∧ (NewPlausibleStack "plausible-stack"
          { StackProps := { Env := env environ0 } }).role.statements.map PolicyStatement.resources
        = [["arn:aws:ssm::111122223333:parameter/plausible/*"]] :=
  ⟨by decide, (missing_env_empty_segment environ0 (by decide)).1,
    ((missing_env_empty_segment environ0 (by decide)).2).trans (by decide)⟩

/-- Claim C9: for every build (both variants), the instance role is
assumable only by the `ec2.amazonaws.com` service principal and carries the
AWS managed policy `AmazonSSMManagedInstanceCore` in addition to the inline
statement with the two parameter-read actions — so its permissions exceed
those two scoped actions. -/
theorem role_principal_and_managed_policy (id : String) (props : PlausibleStackProps) :
    (NewPlausibleStack id props).role.assumedBy = NewServicePrincipal "ec2.amazonaws.com"
    ∧ (NewPlausibleStack id props).role.managedPolicies = ["AmazonSSMManagedInstanceCore"]
    ∧ (NewPlausibleStack id props).role.statements.map PolicyStatement.actions
        = [["ssm:GetParameter", "ssm:GetParameters"]]
    ∧ (FlatVariant.NewPlausibleStack id props).role.assumedBy
        = NewServicePrincipal "ec2.amazonaws.com"
    ∧ (FlatVariant.NewPlausibleStack id props).role.managedPolicies
        = ["AmazonSSMManagedInstanceCore"]
    ∧ (FlatVariant.NewPlausibleStack id props).role.statements.map PolicyStatement.actions
        = [["ssm:GetParameter", "ssm:GetParameters"]] :=
  ⟨rfl, rfl, rfl, rfl, rfl, rfl⟩

/-- Claim C10: for every build (both variants), the security group is
constructed with all outbound traffic allowed. -/
theorem sg_allow_all_outbound (id : String) (props : PlausibleStackProps) :
    (NewPlausibleStack id props).sg.props.allowAllOutbound = true
    ∧ (FlatVariant.NewPlausibleStack id props).sg.props.allowAllOutbound = true :=
  ⟨rfl, rfl⟩
